import Mathlib

/-!
Verification of the natural-language specification of the
`mcp-pycon-de-2025` repository against a shallow embedding of its
TypeScript sources.

The embedding covers:
* `opencontrol/src/pokemon-battle.ts` — damage calculation, single-turn
  simulation, the battle loop and winner computation (JavaScript numbers
  are modelled as `ℚ`/`ℤ`/`ℕ`; the two `Math.random()` draws per damage
  calculation and the per-turn move picks are passed in explicitly as an
  oracle);
* `opencontrol/src/tools.ts` — the `sqlite_schedule_read` tool's `run`
  function (a thrown JavaScript exception is modelled as `Except.error`,
  a returned value as `Except.ok`; the database is an oracle);
* `build-schedule/index.ts` — the schedule importer's upsert semantics
  (tables are modelled as key-indexed partial maps, `INSERT OR REPLACE`
  as a keyed overwrite and `INSERT OR IGNORE` as a keyed
  insert-if-absent).
-/

namespace Mcp

/-! ## Damage model (pokemon-battle.ts) -/

/-- The `TYPE_EFFECTIVENESS` chart from pokemon-battle.ts lines 5-24:
an outer record keyed by the move type holding an inner record keyed by
the defender type. -/
def TYPE_EFFECTIVENESS : List (String × List (String × ℚ)) :=
  [ ("normal", [("rock", 1/2), ("ghost", 0), ("steel", 1/2)]),
    ("fire", [("fire", 1/2), ("water", 1/2), ("grass", 2), ("ice", 2), ("bug", 2),
              ("rock", 1/2), ("dragon", 1/2), ("steel", 2)]),
    ("water", [("fire", 2), ("water", 1/2), ("grass", 1/2), ("ground", 2),
               ("rock", 2), ("dragon", 1/2)]),
    ("electric", [("water", 2), ("electric", 1/2), ("grass", 1/2), ("ground", 0),
                  ("flying", 2), ("dragon", 1/2)]),
    ("grass", [("fire", 1/2), ("water", 2), ("grass", 1/2), ("poison", 1/2),
               ("ground", 2), ("flying", 1/2), ("bug", 1/2), ("rock", 2),
               ("dragon", 1/2), ("steel", 1/2)]),
    ("ice", [("fire", 1/2), ("water", 1/2), ("grass", 2), ("ice", 1/2),
             ("ground", 2), ("flying", 2), ("dragon", 2), ("steel", 1/2)]),
    ("fighting", [("normal", 2), ("ice", 2), ("poison", 1/2), ("flying", 1/2),
                  ("psychic", 1/2), ("bug", 1/2), ("rock", 2), ("ghost", 0),
                  ("dark", 2), ("steel", 2), ("fairy", 1/2)]),
    ("poison", [("grass", 2), ("poison", 1/2), ("ground", 1/2), ("rock", 1/2),
                ("ghost", 1/2), ("steel", 0), ("fairy", 2)]),
    ("ground", [("fire", 2), ("electric", 2), ("grass", 1/2), ("poison", 2),
                ("flying", 0), ("bug", 1/2), ("rock", 2), ("steel", 2)]),
    ("flying", [("electric", 1/2), ("grass", 2), ("fighting", 2), ("bug", 2),
                ("rock", 1/2), ("steel", 1/2)]),
    ("psychic", [("fighting", 2), ("poison", 2), ("psychic", 1/2), ("dark", 0),
                 ("steel", 1/2)]),
    ("bug", [("fire", 1/2), ("grass", 2), ("fighting", 1/2), ("poison", 1/2),
             ("flying", 1/2), ("psychic", 2), ("ghost", 1/2), ("dark", 2),
             ("steel", 1/2), ("fairy", 1/2)]),
    ("rock", [("fire", 2), ("ice", 2), ("fighting", 1/2), ("ground", 1/2),
              ("flying", 2), ("bug", 2), ("steel", 1/2)]),
    ("ghost", [("normal", 0), ("psychic", 2), ("ghost", 2), ("dark", 1/2)]),
    ("dragon", [("dragon", 2), ("steel", 1/2), ("fairy", 0)]),
    ("dark", [("fighting", 1/2), ("psychic", 2), ("ghost", 2), ("dark", 1/2),
              ("fairy", 1/2)]),
    ("steel", [("fire", 1/2), ("water", 1/2), ("electric", 1/2), ("ice", 2),
               ("rock", 2), ("steel", 1/2), ("fairy", 2)]),
    ("fairy", [("fighting", 2), ("poison", 1/2), ("bug", 1/2), ("dragon", 2),
               ("dark", 2), ("steel", 1/2)]) ]

/-- Lookup `TYPE_EFFECTIVENESS[moveType]?.[defenderType]`. -/
def typeEffLookup (moveType defenderType : String) : Option ℚ :=
  (TYPE_EFFECTIVENESS.lookup moveType).bind (fun row => row.lookup defenderType)

/-- Per-stat values of a combatant (`stats` object in pokemon-battle.ts). -/
structure Stats where
  hp : ℕ
  attack : ℕ
  defense : ℕ
  special_attack : ℕ
  special_defense : ℕ
  speed : ℕ
deriving DecidableEq

/-- A move: `name`, `power`, `damage_class.name` and `type.name`. -/
structure Move where
  name : String
  power : ℕ
  damageClass : String
  typeName : String
deriving DecidableEq

/-- A combatant as produced by `fetchPokemonForBattle`: name, level, the
list of its type names, its stats, its mutable `current_hp` (an integer,
clamped at 0 by `Math.max` in `simulateTurn`), and its move list. -/
structure Pokemon where
  name : String
  level : ℕ
  types : List String
  stats : Stats
  current_hp : ℤ
  moves : List Move
deriving DecidableEq

/-- The two `Math.random()` draws consumed by one `calculateDamage`
call: `factorDraw % 16` stands for `Math.floor(Math.random() * 16)` and
`isCrit` for `Math.random() < 0.0625`. -/
structure DamageRand where
  factorDraw : ℕ
  isCrit : Bool
deriving DecidableEq

/-- Return value of `calculateDamage`. -/
structure DamageResult where
  damage : ℕ
  effectiveness : ℚ
  isCritical : Bool
deriving DecidableEq

/-- Floor of a nonnegative rational to a natural number
(`Math.floor` on the nonnegative quantities of the damage pipeline). -/
def floorNat (q : ℚ) : ℕ := (⌊q⌋).toNat

/-- Base damage, pokemon-battle.ts lines 45-57:
`Math.floor(((2 * level / 5 + 2) * power * A / D) / 50) + 2`, where
`level` is `attacker.level || 50` and the attack/defense stats are picked
by `move.damage_class?.name === 'physical'`. -/
def baseDamage (attacker defender : Pokemon) (move : Move) : ℕ :=
  let level : ℚ := if attacker.level = 0 then 50 else (attacker.level : ℚ)
  let isPhysical : Bool := move.damageClass == "physical"
  let attackStat : ℚ :=
    if isPhysical then (attacker.stats.attack : ℚ) else (attacker.stats.special_attack : ℚ)
  let defenseStat : ℚ :=
    if isPhysical then (defender.stats.defense : ℚ) else (defender.stats.special_defense : ℚ)
  floorNat ((2 * level / 5 + 2) * (move.power : ℚ) * attackStat / defenseStat / 50) + 2

/-- STAB factor, pokemon-battle.ts line 60:
`attacker.types.some(type => type.type.name === move.type.name) ? 1.5 : 1`. -/
def stab (attacker : Pokemon) (move : Move) : ℚ :=
  if attacker.types.any (fun t => t == move.typeName) then 3/2 else 1

/-- Type-effectiveness accumulation, pokemon-battle.ts lines 64-70.
The source guards the multiplication with
`if (TYPE_EFFECTIVENESS[moveType] && TYPE_EFFECTIVENESS[moveType][dt])`,
so an entry is multiplied in only when it is present AND truthy: a chart
entry equal to 0 is falsy in JavaScript and is skipped. -/
def effectivenessOf (moveType : String) (defenderTypes : List String) : ℚ :=
  defenderTypes.foldl
    (fun eff dt =>
      match typeEffLookup moveType dt with
      | some v => if v = 0 then eff else eff * v
      | none => eff)
    1

/-- Damage pipeline after the STAB multiplication, pokemon-battle.ts
lines 63-81: type effectiveness, random factor `(85 + draw) / 100`, and
the optional critical-hit ×1.5, each followed by `Math.floor`. -/
def restPipeline (defender : Pokemon) (move : Move) (r : DamageRand) (d2 : ℕ) : ℕ :=
  let eff := effectivenessOf move.typeName defender.types
  let d3 := floorNat ((d2 : ℚ) * eff)
  let randomFactor : ℚ := ((85 + r.factorDraw % 16 : ℕ) : ℚ) / 100
  let d4 := floorNat ((d3 : ℚ) * randomFactor)
  if r.isCrit then floorNat ((d4 : ℚ) * (3/2)) else d4

/-- `calculateDamage`, pokemon-battle.ts lines 39-88.  A zero-power
(status) move short-circuits to zero damage; otherwise the base damage is
multiplied by the STAB factor and floored, then fed to the rest of the
pipeline. -/
def calculateDamage (attacker defender : Pokemon) (move : Move) (r : DamageRand) :
    DamageResult :=
  if move.power = 0 then { damage := 0, effectiveness := 1, isCritical := false }
  else
    { damage := restPipeline defender move r (floorNat ((baseDamage attacker defender move : ℚ) * stab attacker move)),
      effectiveness := effectivenessOf move.typeName defender.types,
      isCritical := r.isCrit }

/-! ### Concrete test combatants -/

/-- Concrete stats for test inputs. -/
def statsA : Stats := { hp := 100, attack := 43, defense := 43, special_attack := 60, special_defense := 50, speed := 65 }

/-- A normal-type physical move used as a concrete test input. -/
def tackle : Move := { name := "tackle", power := 50, damageClass := "physical", typeName := "normal" }

/-- A normal-type attacker used as a concrete test input. -/
def ratta : Pokemon :=
  { name := "ratta", level := 50, types := ["normal"], stats := statsA,
    current_hp := 100, moves := [tackle] }

/-- A ghost-type defender used as a concrete test input. -/
def gast : Pokemon :=
  { name := "gast", level := 50, types := ["ghost"], stats := statsA,
    current_hp := 100, moves := [tackle] }

/-- Fixed random draws for test inputs (no variance reduction, no crit). -/
def randFixed : DamageRand := { factorDraw := 15, isCrit := false }

/-- No fold step of `effectivenessOf` can produce 0: a zero chart entry
is skipped by the truthiness guard and every multiplied-in entry is
nonzero, so starting from 1 the accumulator stays nonzero. -/
theorem effectivenessOf_ne_zero (moveType : String) (defenderTypes : List String) :
    effectivenessOf moveType defenderTypes ≠ 0 := by
  have key : ∀ (l : List String) (acc : ℚ), acc ≠ 0 →
      l.foldl
        (fun eff dt =>
          match typeEffLookup moveType dt with
          | some v => if v = 0 then eff else eff * v
          | none => eff)
        acc ≠ 0 := by
    intro l
    induction l with
    | nil => intro acc hacc; simpa using hacc
    | cons d tl ih =>
      intro acc hacc
      simp only [List.foldl_cons]
      rcases hlk : typeEffLookup moveType d with _ | v
      · simpa [hlk] using ih acc hacc
      · by_cases hv : v = 0
        · simpa [hlk, hv] using ih acc hacc
        · simpa [hlk, hv] using ih (acc * v) (mul_ne_zero hacc hv)
  simpa [effectivenessOf] using key defenderTypes 1 one_ne_zero

/-- Claim C1 (code bug evidence): the chart entry for a normal-type move
against a ghost-type defender is 0, yet `calculateDamage` computes a
type-effectiveness multiplier of 1 for it, because the truthiness guard
`TYPE_EFFECTIVENESS[moveType] && TYPE_EFFECTIVENESS[moveType][dt]` skips
zero-valued entries.  The multiplier is therefore not the product of the
chart entries over the defender types, and a zero entry never zeroes the
damage; the `effectiveness === 0` display branch of `simulateTurn` is
unreachable. -/
theorem calculateDamage_zero_entry_skipped :
    typeEffLookup "normal" "ghost" = some 0
    ∧ (calculateDamage ratta gast tackle randFixed).effectiveness = 1
    ∧ effectivenessOf "normal" ["ghost"] = 1
    ∧ (calculateDamage ratta gast tackle randFixed).damage = 36 := by
  refine ⟨by decide, by decide, by decide, ?_⟩
  have heff : effectivenessOf "normal" ["ghost"] = 1 := by decide
  have hbase : baseDamage ratta gast tackle = 24 := by
    simp only [baseDamage, ratta, gast, tackle, statsA]
    norm_num [floorNat]
    decide
  have hstab : stab ratta tackle = 3/2 := rfl
  have hrest : restPipeline gast tackle randFixed 36 = 36 := by
    simp only [restPipeline, gast, tackle, randFixed]
    rw [heff]
    norm_num [floorNat]
    decide
  have hcd : (calculateDamage ratta gast tackle randFixed).damage
      = restPipeline gast tackle randFixed
          (floorNat ((baseDamage ratta gast tackle : ℚ) * stab ratta tackle)) := by
    simp [calculateDamage, tackle]
  rw [hcd, hbase, hstab]
  have hfs : floorNat (((24 : ℕ) : ℚ) * (3/2)) = 36 := by
    norm_num [floorNat]
    decide
  rw [hfs, hrest]

/-- Claim C6: for a positive-power move, the damage computed by
`calculateDamage` is the post-STAB pipeline applied to the floor of the
base damage times the STAB factor, and the STAB factor is 3/2 exactly
when the attacker's type list contains the move's type, and 1 exactly
when it does not. -/
theorem calculateDamage_stab_iff (a d : Pokemon) (m : Move) (r : DamageRand)
    (hp : 0 < m.power) :
    (calculateDamage a d m r).damage
      = restPipeline d m r (floorNat ((baseDamage a d m : ℚ) * stab a m))
    ∧ (stab a m = 3/2 ↔ m.typeName ∈ a.types)
    ∧ (stab a m = 1 ↔ m.typeName ∉ a.types) := by
  have hne : m.power ≠ 0 := Nat.pos_iff_ne_zero.mp hp
  have hmem_iff : ((a.types.any fun t => t == m.typeName) = true) ↔ m.typeName ∈ a.types := by
    simp
  have hstab : stab a m = if m.typeName ∈ a.types then 3/2 else 1 := by
    by_cases hm : m.typeName ∈ a.types
    · rw [if_pos hm]
      unfold stab
      rw [if_pos (hmem_iff.mpr hm)]
    · rw [if_neg hm]
      unfold stab
      rw [if_neg (fun hc => hm (hmem_iff.mp hc))]
  refine ⟨by simp [calculateDamage, hne], ?_, ?_⟩
  · rw [hstab]
    by_cases hm : m.typeName ∈ a.types
    · simp [hm]
    · simp [hm]
      norm_num
  · rw [hstab]
    by_cases hm : m.typeName ∈ a.types
    · simp [hm]
      norm_num
    · simp [hm]

/-- Witness for `calculateDamage_stab_iff` at a concrete attacker, whose
type list contains the move type. -/
theorem calculateDamage_stab_iff_witness :
    (calculateDamage ratta gast tackle randFixed).damage
      = restPipeline gast tackle randFixed
          (floorNat ((baseDamage ratta gast tackle : ℚ) * stab ratta tackle))
    ∧ (stab ratta tackle = 3/2 ↔ tackle.typeName ∈ ratta.types)
    ∧ (stab ratta tackle = 1 ↔ tackle.typeName ∉ ratta.types) :=
  calculateDamage_stab_iff ratta gast tackle randFixed (by decide)

/-! ## Turn and battle simulation (pokemon-battle.ts) -/

/-- Identifies which of the two combatants passed to `battle_pokemon` an
event belongs to: `one` is `pokemon1`, `two` is `pokemon2` (the source
identifies them by object reference). -/
inductive Side
  | one
  | two
deriving DecidableEq

/-- An attack record pushed onto the event list by `simulateTurn`
(pokemon-battle.ts lines 148-159 and 177-188).  `attackerHP` additionally
records the attacking combatant's `current_hp` at the moment of the
attack — the value tested by the guards `first.current_hp > 0` /
`second.current_hp > 0`.  The message-only entries (`... fainted!`)
carry no attack and are not modelled; the effectiveness is kept as the
number the display strings are derived from. -/
structure TurnEvent where
  side : Side
  attackerHP : ℤ
  moveName : String
  damage : ℕ
  effectiveness : ℚ
  isCritical : Bool
  remaining_hp : ℤ
  fainted : Bool
deriving DecidableEq

/-- One attack inside `simulateTurn`: compute the damage, clamp the
defender's hit points at zero
(`Math.max(0, second.current_hp - result.damage)`), and record the event. -/
def applyAttack (atk dfd : Pokemon) (mv : Move) (r : DamageRand) (s : Side) :
    Pokemon × TurnEvent :=
  let res := calculateDamage atk dfd mv r
  let newHP : ℤ := max 0 (dfd.current_hp - (res.damage : ℤ))
  ({ dfd with current_hp := newHP },
   { side := s, attackerHP := atk.current_hp, moveName := mv.name, damage := res.damage,
     effectiveness := res.effectiveness, isCritical := res.isCritical,
     remaining_hp := newHP, fainted := decide (newHP ≤ 0) })

/-- Body of `simulateTurn` on the speed-ordered pair: the faster
combatant (`first`) attacks if it has hit points left; if that leaves
the defender at zero the turn ends early (early `return events`),
otherwise the other combatant (`second`) attacks back if it has hit
points left.  Returns the updated pair in first/second order together
with the event list. -/
def turnCore (first second : Pokemon) (fm sm : Move) (r1 r2 : DamageRand)
    (fs ss : Side) : Pokemon × Pokemon × List TurnEvent :=
  if 0 < first.current_hp then
    if (applyAttack first second fm r1 fs).1.current_hp ≤ 0 then
      (first, (applyAttack first second fm r1 fs).1, [(applyAttack first second fm r1 fs).2])
    else
      ((applyAttack (applyAttack first second fm r1 fs).1 first sm r2 ss).1,
       (applyAttack first second fm r1 fs).1,
       [(applyAttack first second fm r1 fs).2,
        (applyAttack (applyAttack first second fm r1 fs).1 first sm r2 ss).2])
  else if 0 < second.current_hp then
    ((applyAttack second first sm r2 ss).1, second, [(applyAttack second first sm r2 ss).2])
  else (first, second, [])

/-- `simulateTurn`, pokemon-battle.ts lines 130-199.  Turn order
(line 134): the first argument acts first iff
`attacker.stats.speed >= defender.stats.speed`.  The result is the
updated pair in argument order together with the event list. -/
def simulateTurn (p1 p2 : Pokemon) (m1 m2 : Move) (r1 r2 : DamageRand) :
    Pokemon × Pokemon × List TurnEvent :=
  if p2.stats.speed ≤ p1.stats.speed then
    turnCore p1 p2 m1 m2 r1 r2 Side.one Side.two
  else
    ((turnCore p2 p1 m2 m1 r1 r2 Side.two Side.one).2.1,
     (turnCore p2 p1 m2 m1 r1 r2 Side.two Side.one).1,
     (turnCore p2 p1 m2 m1 r1 r2 Side.two Side.one).2.2)

/-- Per-turn random draws of the battle loop: the two move-selection
draws (`Math.floor(Math.random() * moves.length)`, modelled as an
arbitrary natural taken modulo the list length) and the damage draws of
the two attacks of the turn in execution order. -/
structure TurnRand where
  moveIdx1 : ℕ
  moveIdx2 : ℕ
  dmg1 : DamageRand
  dmg2 : DamageRand

/-- Fallback move for indexing an empty move list. -/
def defaultMove : Move := { name := "", power := 0, damageClass := "", typeName := "" }

/-- `pokemon.moves[Math.floor(Math.random() * pokemon.moves.length)]`
(pokemon-battle.ts lines 246-247). -/
def pickMove (p : Pokemon) (idx : ℕ) : Move :=
  p.moves.getD (idx % p.moves.length) defaultMove

/-- The battle loop of `battle_pokemon.run`, pokemon-battle.ts lines
241-263: `while (currentTurn <= maxTurns && p1.hp > 0 && p2.hp > 0)` run
one turn.  `fuel` is the number of turns the cap still allows, `turnIdx`
the source's `currentTurn` (used to index the oracle).  The result is
`(turns executed, all attack events in order, final pokemon1, final
pokemon2)`.  The `break` at lines 260-262 only re-tests what the `while`
condition tests next and does not change the observable behaviour. -/
def runBattle (oracle : ℕ → TurnRand) : ℕ → ℕ → Pokemon → Pokemon →
    ℕ × List TurnEvent × Pokemon × Pokemon
  | _, 0, p1, p2 => (0, [], p1, p2)
  | turnIdx, fuel + 1, p1, p2 =>
    if 0 < p1.current_hp ∧ 0 < p2.current_hp then
      let tr := oracle turnIdx
      let t := simulateTurn p1 p2 (pickMove p1 tr.moveIdx1) (pickMove p2 tr.moveIdx2)
                 tr.dmg1 tr.dmg2
      let rest := runBattle oracle (turnIdx + 1) fuel t.1 t.2.1
      (rest.1 + 1, t.2.2 ++ rest.2.1, rest.2.2)
    else (0, [], p1, p2)

/-- `const maxTurns = input.turns || 10` (pokemon-battle.ts line 220):
an omitted `turns` and the falsy value 0 both give the default cap 10. -/
def maxTurnsOf : Option ℕ → ℕ
  | none => 10
  | some t => if t = 0 then 10 else t

/-- The battle simulation performed by `battle_pokemon.run`: the loop
starting at `currentTurn = 1` with cap `maxTurnsOf turns`. -/
def battleSim (p1 p2 : Pokemon) (turns : Option ℕ) (oracle : ℕ → TurnRand) :
    ℕ × List TurnEvent × Pokemon × Pokemon :=
  runBattle oracle 1 (maxTurnsOf turns) p1 p2

/-- Possible outcomes of a battle (the source uses the winning
combatant's name, or the string `draw`). -/
inductive Winner
  | pokemon1
  | pokemon2
  | draw
deriving DecidableEq

/-- Winner computation, pokemon-battle.ts lines 266-279. -/
def computeWinner (hp1 hp2 : ℤ) : Winner :=
  if hp1 ≤ 0 ∧ hp2 ≤ 0 then Winner.draw
  else if hp1 ≤ 0 then Winner.pokemon2
  else if hp2 ≤ 0 then Winner.pokemon1
  else if hp2 < hp1 then Winner.pokemon1
  else if hp1 < hp2 then Winner.pokemon2
  else Winner.draw

/-! ### Invariants of attacks, turns and the battle loop -/

/-- The defender's hit points after an attack are the clamped difference. -/
lemma applyAttack_hp (atk dfd : Pokemon) (mv : Move) (r : DamageRand) (s : Side) :
    (applyAttack atk dfd mv r s).1.current_hp
      = max 0 (dfd.current_hp - ((calculateDamage atk dfd mv r).damage : ℤ)) := rfl

/-- Hit points are clamped at zero, so they never become negative. -/
lemma applyAttack_hp_nonneg (atk dfd : Pokemon) (mv : Move) (r : DamageRand) (s : Side) :
    0 ≤ (applyAttack atk dfd mv r s).1.current_hp :=
  le_max_left 0 _

/-- An attack never increases the defender's (nonnegative) hit points. -/
lemma applyAttack_hp_le (atk dfd : Pokemon) (mv : Move) (r : DamageRand) (s : Side)
    (h : 0 ≤ dfd.current_hp) :
    (applyAttack atk dfd mv r s).1.current_hp ≤ dfd.current_hp :=
  max_le h (sub_le_self _ (Int.natCast_nonneg _))

/-- Branch equation: faster combatant alive, its attack faints the
defender. -/
lemma turnCore_eq_faint (f s : Pokemon) (fm sm : Move) (r1 r2 : DamageRand) (fs ss : Side)
    (hf : 0 < f.current_hp) (hd : (applyAttack f s fm r1 fs).1.current_hp ≤ 0) :
    turnCore f s fm sm r1 r2 fs ss
      = (f, (applyAttack f s fm r1 fs).1, [(applyAttack f s fm r1 fs).2]) := by
  unfold turnCore
  rw [if_pos hf, if_pos hd]

/-- Branch equation: faster combatant alive, defender survives and
strikes back. -/
lemma turnCore_eq_both (f s : Pokemon) (fm sm : Move) (r1 r2 : DamageRand) (fs ss : Side)
    (hf : 0 < f.current_hp) (hd : ¬(applyAttack f s fm r1 fs).1.current_hp ≤ 0) :
    turnCore f s fm sm r1 r2 fs ss
      = ((applyAttack (applyAttack f s fm r1 fs).1 f sm r2 ss).1,
         (applyAttack f s fm r1 fs).1,
         [(applyAttack f s fm r1 fs).2,
          (applyAttack (applyAttack f s fm r1 fs).1 f sm r2 ss).2]) := by
  unfold turnCore
  rw [if_pos hf, if_neg hd]

/-- Branch equation: faster combatant already fainted, the slower one
attacks alone. -/
lemma turnCore_eq_second (f s : Pokemon) (fm sm : Move) (r1 r2 : DamageRand) (fs ss : Side)
    (hf : ¬0 < f.current_hp) (hs : 0 < s.current_hp) :
    turnCore f s fm sm r1 r2 fs ss
      = ((applyAttack s f sm r2 ss).1, s, [(applyAttack s f sm r2 ss).2]) := by
  unfold turnCore
  rw [if_neg hf, if_pos hs]

/-- Branch equation: both combatants already fainted, nothing happens. -/
lemma turnCore_eq_none (f s : Pokemon) (fm sm : Move) (r1 r2 : DamageRand) (fs ss : Side)
    (hf : ¬0 < f.current_hp) (hs : ¬0 < s.current_hp) :
    turnCore f s fm sm r1 r2 fs ss = (f, s, []) := by
  unfold turnCore
  rw [if_neg hf, if_neg hs]

/-- Invariants of one speed-ordered turn: hit points stay nonnegative and
never increase, and every recorded attack was made with positive attacker
hit points and left the defender with nonnegative hit points. -/
lemma turnCore_spec (f s : Pokemon) (fm sm : Move) (r1 r2 : DamageRand) (fs ss : Side)
    (h1 : 0 ≤ f.current_hp) (h2 : 0 ≤ s.current_hp) :
    0 ≤ (turnCore f s fm sm r1 r2 fs ss).1.current_hp
    ∧ 0 ≤ (turnCore f s fm sm r1 r2 fs ss).2.1.current_hp
    ∧ (turnCore f s fm sm r1 r2 fs ss).1.current_hp ≤ f.current_hp
    ∧ (turnCore f s fm sm r1 r2 fs ss).2.1.current_hp ≤ s.current_hp
    ∧ ∀ e ∈ (turnCore f s fm sm r1 r2 fs ss).2.2, 0 < e.attackerHP ∧ 0 ≤ e.remaining_hp := by
  by_cases hf : 0 < f.current_hp
  · by_cases hd : (applyAttack f s fm r1 fs).1.current_hp ≤ 0
    · rw [turnCore_eq_faint f s fm sm r1 r2 fs ss hf hd]
      refine ⟨h1, applyAttack_hp_nonneg f s fm r1 fs, le_refl f.current_hp,
        applyAttack_hp_le f s fm r1 fs h2, ?_⟩
      intro e he
      have he' : e = (applyAttack f s fm r1 fs).2 := by simpa using he
      subst he'
      exact ⟨hf, le_max_left 0 _⟩
    · rw [turnCore_eq_both f s fm sm r1 r2 fs ss hf hd]
      refine ⟨applyAttack_hp_nonneg (applyAttack f s fm r1 fs).1 f sm r2 ss,
        applyAttack_hp_nonneg f s fm r1 fs,
        applyAttack_hp_le (applyAttack f s fm r1 fs).1 f sm r2 ss h1,
        applyAttack_hp_le f s fm r1 fs h2, ?_⟩
      intro e he
      have he' : e = (applyAttack f s fm r1 fs).2
          ∨ e = (applyAttack (applyAttack f s fm r1 fs).1 f sm r2 ss).2 := by
        simpa using he
      rcases he' with he' | he' <;> subst he'
      · exact ⟨hf, le_max_left 0 _⟩
      · exact ⟨lt_of_not_le hd, le_max_left 0 _⟩
  · by_cases hs : 0 < s.current_hp
    · rw [turnCore_eq_second f s fm sm r1 r2 fs ss hf hs]
      refine ⟨applyAttack_hp_nonneg s f sm r2 ss, h2,
        applyAttack_hp_le s f sm r2 ss h1, le_refl s.current_hp, ?_⟩
      intro e he
      have he' : e = (applyAttack s f sm r2 ss).2 := by simpa using he
      subst he'
      exact ⟨hs, le_max_left 0 _⟩
    · rw [turnCore_eq_none f s fm sm r1 r2 fs ss hf hs]
      exact ⟨h1, h2, le_refl _, le_refl _, fun e he => absurd he (List.not_mem_nil e)⟩

/-- After a turn that starts with both combatants alive, at least one of
them is still alive: the second combatant attacks only if it survived the
first combatant's attack. -/
lemma turnCore_not_both_zero (f s : Pokemon) (fm sm : Move) (r1 r2 : DamageRand)
    (fs ss : Side) (h1 : 0 < f.current_hp) (_h2 : 0 < s.current_hp) :
    0 < (turnCore f s fm sm r1 r2 fs ss).1.current_hp
    ∨ 0 < (turnCore f s fm sm r1 r2 fs ss).2.1.current_hp := by
  by_cases hd : (applyAttack f s fm r1 fs).1.current_hp ≤ 0
  · rw [turnCore_eq_faint f s fm sm r1 r2 fs ss h1 hd]
    exact Or.inl h1
  · rw [turnCore_eq_both f s fm sm r1 r2 fs ss h1 hd]
    exact Or.inr (lt_of_not_le hd)

/-- If the faster combatant is alive, the first event of the turn is its
attack. -/
lemma turnCore_head (f s : Pokemon) (fm sm : Move) (r1 r2 : DamageRand) (fs ss : Side)
    (h1 : 0 < f.current_hp) :
    (turnCore f s fm sm r1 r2 fs ss).2.2.head?.map TurnEvent.side = some fs := by
  by_cases hd : (applyAttack f s fm r1 fs).1.current_hp ≤ 0
  · rw [turnCore_eq_faint f s fm sm r1 r2 fs ss h1 hd]
    rfl
  · rw [turnCore_eq_both f s fm sm r1 r2 fs ss h1 hd]
    rfl

/-- The invariants of `turnCore`, transported through the argument-order
bookkeeping of `simulateTurn`. -/
lemma simulateTurn_spec (p1 p2 : Pokemon) (m1 m2 : Move) (r1 r2 : DamageRand)
    (h1 : 0 ≤ p1.current_hp) (h2 : 0 ≤ p2.current_hp) :
    0 ≤ (simulateTurn p1 p2 m1 m2 r1 r2).1.current_hp
    ∧ 0 ≤ (simulateTurn p1 p2 m1 m2 r1 r2).2.1.current_hp
    ∧ (simulateTurn p1 p2 m1 m2 r1 r2).1.current_hp ≤ p1.current_hp
    ∧ (simulateTurn p1 p2 m1 m2 r1 r2).2.1.current_hp ≤ p2.current_hp
    ∧ ∀ e ∈ (simulateTurn p1 p2 m1 m2 r1 r2).2.2, 0 < e.attackerHP ∧ 0 ≤ e.remaining_hp := by
  unfold simulateTurn
  split_ifs with hsp
  · exact turnCore_spec p1 p2 m1 m2 r1 r2 Side.one Side.two h1 h2
  · obtain ⟨a, b, c, d, e⟩ := turnCore_spec p2 p1 m2 m1 r1 r2 Side.two Side.one h2 h1
    exact ⟨b, a, d, c, e⟩

/-- `turnCore_not_both_zero`, in argument order. -/
lemma simulateTurn_not_both_zero (p1 p2 : Pokemon) (m1 m2 : Move) (r1 r2 : DamageRand)
    (h1 : 0 < p1.current_hp) (h2 : 0 < p2.current_hp) :
    0 < (simulateTurn p1 p2 m1 m2 r1 r2).1.current_hp
    ∨ 0 < (simulateTurn p1 p2 m1 m2 r1 r2).2.1.current_hp := by
  unfold simulateTurn
  split_ifs with hsp
  · exact turnCore_not_both_zero p1 p2 m1 m2 r1 r2 Side.one Side.two h1 h2
  · exact (turnCore_not_both_zero p2 p1 m2 m1 r1 r2 Side.two Side.one h2 h1).symm

/-- When the loop guard fails the battle loop executes no turn and leaves
the state unchanged. -/
lemma runBattle_dead (oracle : ℕ → TurnRand) (turnIdx fuel : ℕ) (p1 p2 : Pokemon)
    (h : ¬(0 < p1.current_hp ∧ 0 < p2.current_hp)) :
    runBattle oracle turnIdx fuel p1 p2 = (0, [], p1, p2) := by
  cases fuel with
  | zero => rfl
  | succ n =>
    simp only [runBattle]
    rw [if_neg h]

/-- Invariants of the battle loop: the number of executed turns is
bounded by the fuel; hit points stay nonnegative and never increase; all
recorded attacks were made with positive attacker hit points and left
nonnegative defender hit points; and the loop only stops before
exhausting the fuel when a combatant is at zero. -/
lemma runBattle_spec (oracle : ℕ → TurnRand) (fuel : ℕ) :
    ∀ (turnIdx : ℕ) (p1 p2 : Pokemon), 0 ≤ p1.current_hp → 0 ≤ p2.current_hp →
    (runBattle oracle turnIdx fuel p1 p2).1 ≤ fuel
    ∧ 0 ≤ (runBattle oracle turnIdx fuel p1 p2).2.2.1.current_hp
    ∧ 0 ≤ (runBattle oracle turnIdx fuel p1 p2).2.2.2.current_hp
    ∧ (runBattle oracle turnIdx fuel p1 p2).2.2.1.current_hp ≤ p1.current_hp
    ∧ (runBattle oracle turnIdx fuel p1 p2).2.2.2.current_hp ≤ p2.current_hp
    ∧ (∀ e ∈ (runBattle oracle turnIdx fuel p1 p2).2.1, 0 < e.attackerHP ∧ 0 ≤ e.remaining_hp)
    ∧ ((runBattle oracle turnIdx fuel p1 p2).1 = fuel
        ∨ (runBattle oracle turnIdx fuel p1 p2).2.2.1.current_hp ≤ 0
        ∨ (runBattle oracle turnIdx fuel p1 p2).2.2.2.current_hp ≤ 0) := by
  induction fuel with
  | zero =>
    intro turnIdx p1 p2 h1 h2
    exact ⟨le_refl 0, h1, h2, le_refl _, le_refl _, fun e he => absurd he (List.not_mem_nil e), Or.inl rfl⟩
  | succ n ih =>
    intro turnIdx p1 p2 h1 h2
    by_cases hp : 0 < p1.current_hp ∧ 0 < p2.current_hp
    · have hr : runBattle oracle turnIdx (n + 1) p1 p2
          = ((runBattle oracle (turnIdx + 1) n
                (simulateTurn p1 p2 (pickMove p1 (oracle turnIdx).moveIdx1)
                  (pickMove p2 (oracle turnIdx).moveIdx2)
                  (oracle turnIdx).dmg1 (oracle turnIdx).dmg2).1
                (simulateTurn p1 p2 (pickMove p1 (oracle turnIdx).moveIdx1)
                  (pickMove p2 (oracle turnIdx).moveIdx2)
                  (oracle turnIdx).dmg1 (oracle turnIdx).dmg2).2.1).1 + 1,
              (simulateTurn p1 p2 (pickMove p1 (oracle turnIdx).moveIdx1)
                (pickMove p2 (oracle turnIdx).moveIdx2)
                (oracle turnIdx).dmg1 (oracle turnIdx).dmg2).2.2
              ++ (runBattle oracle (turnIdx + 1) n
                    (simulateTurn p1 p2 (pickMove p1 (oracle turnIdx).moveIdx1)
                      (pickMove p2 (oracle turnIdx).moveIdx2)
                      (oracle turnIdx).dmg1 (oracle turnIdx).dmg2).1
                    (simulateTurn p1 p2 (pickMove p1 (oracle turnIdx).moveIdx1)
                      (pickMove p2 (oracle turnIdx).moveIdx2)
                      (oracle turnIdx).dmg1 (oracle turnIdx).dmg2).2.1).2.1,
              (runBattle oracle (turnIdx + 1) n
                (simulateTurn p1 p2 (pickMove p1 (oracle turnIdx).moveIdx1)
                  (pickMove p2 (oracle turnIdx).moveIdx2)
                  (oracle turnIdx).dmg1 (oracle turnIdx).dmg2).1
                (simulateTurn p1 p2 (pickMove p1 (oracle turnIdx).moveIdx1)
                  (pickMove p2 (oracle turnIdx).moveIdx2)
                  (oracle turnIdx).dmg1 (oracle turnIdx).dmg2).2.1).2.2) := by
        simp only [runBattle]
        rw [if_pos hp]
      obtain ⟨ta, tb, tc, td, tev⟩ :=
        simulateTurn_spec p1 p2 (pickMove p1 (oracle turnIdx).moveIdx1)
          (pickMove p2 (oracle turnIdx).moveIdx2)
          (oracle turnIdx).dmg1 (oracle turnIdx).dmg2 h1 h2
      obtain ⟨ih1, ih2, ih3, ih4, ih5, ih6, ih7⟩ := ih (turnIdx + 1) _ _ ta tb
      rw [hr]
      refine ⟨by omega, ih2, ih3, le_trans ih4 tc, le_trans ih5 td, ?_, ?_⟩
      · intro e he
        rcases List.mem_append.mp he with he | he
        · exact tev e he
        · exact ih6 e he
      · rcases ih7 with h | h | h
        · exact Or.inl (by omega)
        · exact Or.inr (Or.inl h)
        · exact Or.inr (Or.inr h)
    · rw [runBattle_dead oracle turnIdx (n + 1) p1 p2 hp]
      have : p1.current_hp ≤ 0 ∨ p2.current_hp ≤ 0 := by
        rcases not_and_or.mp hp with h | h
        · exact Or.inl (le_of_not_lt h)
        · exact Or.inr (le_of_not_lt h)
      exact ⟨Nat.zero_le _, h1, h2, le_refl _, le_refl _,
        fun e he => absurd he (List.not_mem_nil e), Or.inr this⟩

/-- If both combatants enter the battle loop alive, at least one leaves
it alive. -/
lemma runBattle_not_both_zero (oracle : ℕ → TurnRand) (fuel : ℕ) :
    ∀ (turnIdx : ℕ) (p1 p2 : Pokemon), 0 < p1.current_hp → 0 < p2.current_hp →
    0 < (runBattle oracle turnIdx fuel p1 p2).2.2.1.current_hp
    ∨ 0 < (runBattle oracle turnIdx fuel p1 p2).2.2.2.current_hp := by
  induction fuel with
  | zero =>
    intro turnIdx p1 p2 h1 h2
    exact Or.inl h1
  | succ n ih =>
    intro turnIdx p1 p2 h1 h2
    have hp : 0 < p1.current_hp ∧ 0 < p2.current_hp := ⟨h1, h2⟩
    have hr : runBattle oracle turnIdx (n + 1) p1 p2
        = ((runBattle oracle (turnIdx + 1) n
              (simulateTurn p1 p2 (pickMove p1 (oracle turnIdx).moveIdx1)
                (pickMove p2 (oracle turnIdx).moveIdx2)
                (oracle turnIdx).dmg1 (oracle turnIdx).dmg2).1
              (simulateTurn p1 p2 (pickMove p1 (oracle turnIdx).moveIdx1)
                (pickMove p2 (oracle turnIdx).moveIdx2)
                (oracle turnIdx).dmg1 (oracle turnIdx).dmg2).2.1).1 + 1,
            (simulateTurn p1 p2 (pickMove p1 (oracle turnIdx).moveIdx1)
              (pickMove p2 (oracle turnIdx).moveIdx2)
              (oracle turnIdx).dmg1 (oracle turnIdx).dmg2).2.2
            ++ (runBattle oracle (turnIdx + 1) n
                  (simulateTurn p1 p2 (pickMove p1 (oracle turnIdx).moveIdx1)
                    (pickMove p2 (oracle turnIdx).moveIdx2)
                    (oracle turnIdx).dmg1 (oracle turnIdx).dmg2).1
                  (simulateTurn p1 p2 (pickMove p1 (oracle turnIdx).moveIdx1)
                    (pickMove p2 (oracle turnIdx).moveIdx2)
                    (oracle turnIdx).dmg1 (oracle turnIdx).dmg2).2.1).2.1,
            (runBattle oracle (turnIdx + 1) n
              (simulateTurn p1 p2 (pickMove p1 (oracle turnIdx).moveIdx1)
                (pickMove p2 (oracle turnIdx).moveIdx2)
                (oracle turnIdx).dmg1 (oracle turnIdx).dmg2).1
              (simulateTurn p1 p2 (pickMove p1 (oracle turnIdx).moveIdx1)
                (pickMove p2 (oracle turnIdx).moveIdx2)
                (oracle turnIdx).dmg1 (oracle turnIdx).dmg2).2.1).2.2) := by
      simp only [runBattle]
      rw [if_pos hp]
    rw [hr]
    by_cases ht : 0 < (simulateTurn p1 p2 (pickMove p1 (oracle turnIdx).moveIdx1)
        (pickMove p2 (oracle turnIdx).moveIdx2)
        (oracle turnIdx).dmg1 (oracle turnIdx).dmg2).1.current_hp
      ∧ 0 < (simulateTurn p1 p2 (pickMove p1 (oracle turnIdx).moveIdx1)
        (pickMove p2 (oracle turnIdx).moveIdx2)
        (oracle turnIdx).dmg1 (oracle turnIdx).dmg2).2.1.current_hp
    · exact ih (turnIdx + 1) _ _ ht.1 ht.2
    · rw [runBattle_dead oracle (turnIdx + 1) n _ _ ht]
      exact simulateTurn_not_both_zero p1 p2 _ _ _ _ h1 h2

/-! ### Winner computation and the claims about the battle -/

/-- With clamped (nonnegative) hit points the winner chain collapses to a
three-way comparison. -/
lemma computeWinner_eq (hp1 hp2 : ℤ) (h1 : 0 ≤ hp1) (h2 : 0 ≤ hp2) :
    computeWinner hp1 hp2
      = if hp2 < hp1 then Winner.pokemon1
        else if hp1 < hp2 then Winner.pokemon2
        else Winner.draw := by
  unfold computeWinner
  split_ifs <;> first | rfl | (exfalso; omega)

/-- Characterisation of the winner in terms of the hit-point comparison. -/
lemma computeWinner_iff (hp1 hp2 : ℤ) (h1 : 0 ≤ hp1) (h2 : 0 ≤ hp2) :
    (computeWinner hp1 hp2 = Winner.pokemon1 ↔ hp2 < hp1)
    ∧ (computeWinner hp1 hp2 = Winner.pokemon2 ↔ hp1 < hp2)
    ∧ (computeWinner hp1 hp2 = Winner.draw ↔ hp1 = hp2) := by
  rw [computeWinner_eq hp1 hp2 h1 h2]
  refine ⟨?_, ?_, ?_⟩ <;> split_ifs with ha hb <;> simp_all <;> omega

/-- A fixed oracle used for concrete battles. -/
def oracleFixed : ℕ → TurnRand :=
  fun _ => { moveIdx1 := 0, moveIdx2 := 0, dmg1 := randFixed, dmg2 := randFixed }

/-- Claim C3: at the end of every simulated battle the declared winner is
the combatant with strictly higher remaining hit points, and the result
is a draw exactly when the remaining hit points are equal (which covers
a simultaneous zeroing). -/
theorem battle_winner_by_hp (p1 p2 : Pokemon) (turns : Option ℕ) (oracle : ℕ → TurnRand)
    (h1 : 0 ≤ p1.current_hp) (h2 : 0 ≤ p2.current_hp) :
    (computeWinner (battleSim p1 p2 turns oracle).2.2.1.current_hp
        (battleSim p1 p2 turns oracle).2.2.2.current_hp = Winner.pokemon1
      ↔ (battleSim p1 p2 turns oracle).2.2.2.current_hp
          < (battleSim p1 p2 turns oracle).2.2.1.current_hp)
    ∧ (computeWinner (battleSim p1 p2 turns oracle).2.2.1.current_hp
        (battleSim p1 p2 turns oracle).2.2.2.current_hp = Winner.pokemon2
      ↔ (battleSim p1 p2 turns oracle).2.2.1.current_hp
          < (battleSim p1 p2 turns oracle).2.2.2.current_hp)
    ∧ (computeWinner (battleSim p1 p2 turns oracle).2.2.1.current_hp
        (battleSim p1 p2 turns oracle).2.2.2.current_hp = Winner.draw
      ↔ (battleSim p1 p2 turns oracle).2.2.1.current_hp
          = (battleSim p1 p2 turns oracle).2.2.2.current_hp) := by
  obtain ⟨-, hq1, hq2, -, -, -, -⟩ :=
    runBattle_spec oracle (maxTurnsOf turns) 1 p1 p2 h1 h2
  exact computeWinner_iff _ _ hq1 hq2

/-- Witness for `battle_winner_by_hp` at a concrete battle. -/
theorem battle_winner_by_hp_witness :
    (0 : ℤ) ≤ ratta.current_hp ∧ (0 : ℤ) ≤ gast.current_hp
    ∧ ((computeWinner (battleSim ratta gast none oracleFixed).2.2.1.current_hp
          (battleSim ratta gast none oracleFixed).2.2.2.current_hp = Winner.pokemon1
        ↔ (battleSim ratta gast none oracleFixed).2.2.2.current_hp
            < (battleSim ratta gast none oracleFixed).2.2.1.current_hp)
      ∧ (computeWinner (battleSim ratta gast none oracleFixed).2.2.1.current_hp
          (battleSim ratta gast none oracleFixed).2.2.2.current_hp = Winner.pokemon2
        ↔ (battleSim ratta gast none oracleFixed).2.2.1.current_hp
            < (battleSim ratta gast none oracleFixed).2.2.2.current_hp)
      ∧ (computeWinner (battleSim ratta gast none oracleFixed).2.2.1.current_hp
          (battleSim ratta gast none oracleFixed).2.2.2.current_hp = Winner.draw
        ↔ (battleSim ratta gast none oracleFixed).2.2.1.current_hp
            = (battleSim ratta gast none oracleFixed).2.2.2.current_hp)) :=
  ⟨by decide, by decide,
    battle_winner_by_hp ratta gast none oracleFixed (by decide) (by decide)⟩

/-- Claim C4: every attack recorded during a battle was made by a
combatant with strictly positive hit points at that moment, and hit
points never increase during the battle — so a combatant whose hit
points have reached zero performs no further attacks, in that turn or
any later one. -/
theorem battle_no_attack_after_faint (p1 p2 : Pokemon) (turns : Option ℕ)
    (oracle : ℕ → TurnRand) (h1 : 0 ≤ p1.current_hp) (h2 : 0 ≤ p2.current_hp) :
    ((battleSim p1 p2 turns oracle).2.1.all fun e => decide (0 < e.attackerHP)) = true
    ∧ (battleSim p1 p2 turns oracle).2.2.1.current_hp ≤ p1.current_hp
    ∧ (battleSim p1 p2 turns oracle).2.2.2.current_hp ≤ p2.current_hp := by
  obtain ⟨-, -, -, hm1, hm2, hev, -⟩ :=
    runBattle_spec oracle (maxTurnsOf turns) 1 p1 p2 h1 h2
  refine ⟨?_, hm1, hm2⟩
  rw [List.all_eq_true]
  intro e he
  exact decide_eq_true (hev e he).1

/-- Witness for `battle_no_attack_after_faint` at a concrete battle. -/
theorem battle_no_attack_after_faint_witness :
    (0 : ℤ) ≤ ratta.current_hp ∧ (0 : ℤ) ≤ gast.current_hp
    ∧ (((battleSim ratta gast none oracleFixed).2.1.all
          fun e => decide (0 < e.attackerHP)) = true
      ∧ (battleSim ratta gast none oracleFixed).2.2.1.current_hp ≤ ratta.current_hp
      ∧ (battleSim ratta gast none oracleFixed).2.2.2.current_hp ≤ gast.current_hp) :=
  ⟨by decide, by decide,
    battle_no_attack_after_faint ratta gast none oracleFixed (by decide) (by decide)⟩

/-- Claim C5: the battle loop executes at most the configured number of
turns; if it executed fewer, a combatant ended at zero hit points; and
when a combatant is already at zero the loop executes no turn at all. -/
theorem battle_within_turn_cap (p1 p2 : Pokemon) (turns : Option ℕ) (oracle : ℕ → TurnRand)
    (h1 : 0 ≤ p1.current_hp) (h2 : 0 ≤ p2.current_hp) :
    (battleSim p1 p2 turns oracle).1 ≤ maxTurnsOf turns
    ∧ ((battleSim p1 p2 turns oracle).1 = maxTurnsOf turns
        ∨ (battleSim p1 p2 turns oracle).2.2.1.current_hp ≤ 0
        ∨ (battleSim p1 p2 turns oracle).2.2.2.current_hp ≤ 0)
    ∧ ((0 < p1.current_hp ∧ 0 < p2.current_hp) ∨ (battleSim p1 p2 turns oracle).1 = 0) := by
  obtain ⟨hcap, -, -, -, -, -, hstop⟩ :=
    runBattle_spec oracle (maxTurnsOf turns) 1 p1 p2 h1 h2
  refine ⟨hcap, hstop, ?_⟩
  by_cases hp : 0 < p1.current_hp ∧ 0 < p2.current_hp
  · exact Or.inl hp
  · right
    show (runBattle oracle 1 (maxTurnsOf turns) p1 p2).1 = 0
    rw [runBattle_dead oracle 1 (maxTurnsOf turns) p1 p2 hp]

/-- Witness for `battle_within_turn_cap` at a concrete battle. -/
theorem battle_within_turn_cap_witness :
    (0 : ℤ) ≤ ratta.current_hp ∧ (0 : ℤ) ≤ gast.current_hp
    ∧ ((battleSim ratta gast (some 3) oracleFixed).1 ≤ maxTurnsOf (some 3)
      ∧ ((battleSim ratta gast (some 3) oracleFixed).1 = maxTurnsOf (some 3)
          ∨ (battleSim ratta gast (some 3) oracleFixed).2.2.1.current_hp ≤ 0
          ∨ (battleSim ratta gast (some 3) oracleFixed).2.2.2.current_hp ≤ 0)
      ∧ ((0 < ratta.current_hp ∧ 0 < gast.current_hp)
          ∨ (battleSim ratta gast (some 3) oracleFixed).1 = 0)) :=
  ⟨by decide, by decide,
    battle_within_turn_cap ratta gast (some 3) oracleFixed (by decide) (by decide)⟩

/-- Claim C7: in a turn between two live combatants the strictly faster
one attacks first, and on a speed tie the first combatant passed to the
turn attacks first. -/
theorem simulateTurn_speed_order (p1 p2 : Pokemon) (m1 m2 : Move) (r1 r2 : DamageRand)
    (h1 : 0 < p1.current_hp) (h2 : 0 < p2.current_hp) :
    (simulateTurn p1 p2 m1 m2 r1 r2).2.2.head?.map TurnEvent.side
      = some (if p2.stats.speed < p1.stats.speed then Side.one
              else if p1.stats.speed < p2.stats.speed then Side.two
              else Side.one) := by
  unfold simulateTurn
  by_cases hsp : p2.stats.speed ≤ p1.stats.speed
  · rw [if_pos hsp, turnCore_head p1 p2 m1 m2 r1 r2 Side.one Side.two h1]
    by_cases hlt : p2.stats.speed < p1.stats.speed
    · rw [if_pos hlt]
    · rw [if_neg hlt, if_neg (show ¬p1.stats.speed < p2.stats.speed by omega)]
  · rw [if_neg hsp]
    have hgoal : ((turnCore p2 p1 m2 m1 r1 r2 Side.two Side.one).2.1,
        (turnCore p2 p1 m2 m1 r1 r2 Side.two Side.one).1,
        (turnCore p2 p1 m2 m1 r1 r2 Side.two Side.one).2.2).2.2
        = (turnCore p2 p1 m2 m1 r1 r2 Side.two Side.one).2.2 := rfl
    rw [hgoal, turnCore_head p2 p1 m2 m1 r1 r2 Side.two Side.one h2]
    have hlt : p1.stats.speed < p2.stats.speed := lt_of_not_le hsp
    rw [if_neg (show ¬p2.stats.speed < p1.stats.speed by omega), if_pos hlt]

/-- Witness for `simulateTurn_speed_order` on a speed tie. -/
theorem simulateTurn_speed_order_witness :
    (0 : ℤ) < ratta.current_hp ∧ (0 : ℤ) < gast.current_hp
    ∧ (simulateTurn ratta gast tackle tackle randFixed randFixed).2.2.head?.map TurnEvent.side
        = some (if gast.stats.speed < ratta.stats.speed then Side.one
                else if ratta.stats.speed < gast.stats.speed then Side.two
                else Side.one) :=
  ⟨by decide, by decide,
    simulateTurn_speed_order ratta gast tackle tackle randFixed randFixed
      (by decide) (by decide)⟩

/-- With fuel left and both combatants alive, the loop executes at least
one turn. -/
lemma runBattle_pos (oracle : ℕ → TurnRand) (turnIdx n : ℕ) (p1 p2 : Pokemon)
    (h1 : 0 < p1.current_hp) (h2 : 0 < p2.current_hp) :
    0 < (runBattle oracle turnIdx (n + 1) p1 p2).1 := by
  simp only [runBattle]
  rw [if_pos (⟨h1, h2⟩ : 0 < p1.current_hp ∧ 0 < p2.current_hp)]
  exact Nat.succ_pos _

/-- Claim C9: a `turns` argument of 0 (a falsy value in JavaScript) and
an omitted `turns` both select the default cap of 10, and with that cap a
battle between two live combatants simulates at least one turn rather
than ending immediately. -/
theorem battle_default_turn_cap (p1 p2 : Pokemon) (oracle : ℕ → TurnRand)
    (h1 : 0 < p1.current_hp) (h2 : 0 < p2.current_hp) :
    maxTurnsOf (some 0) = 10 ∧ maxTurnsOf none = 10
    ∧ 0 < (battleSim p1 p2 (some 0) oracle).1 := by
  refine ⟨rfl, rfl, ?_⟩
  show 0 < (runBattle oracle 1 (9 + 1) p1 p2).1
  exact runBattle_pos oracle 1 9 p1 p2 h1 h2

/-- Witness for `battle_default_turn_cap` at a concrete battle. -/
theorem battle_default_turn_cap_witness :
    (0 : ℤ) < ratta.current_hp ∧ (0 : ℤ) < gast.current_hp
    ∧ (maxTurnsOf (some 0) = 10 ∧ maxTurnsOf none = 10
      ∧ 0 < (battleSim ratta gast (some 0) oracleFixed).1) :=
  ⟨by decide, by decide,
    battle_default_turn_cap ratta gast oracleFixed (by decide) (by decide)⟩

/-- Claim C10: when both combatants start alive, final hit points are
nonnegative, at least one combatant ends alive (so the
draw-by-simultaneous-zeroing branch of the winner computation is
unreachable), and every attack leaves the defender with nonnegative hit
points. -/
theorem battle_at_most_one_faints (p1 p2 : Pokemon) (turns : Option ℕ) (oracle : ℕ → TurnRand)
    (h1 : 0 < p1.current_hp) (h2 : 0 < p2.current_hp) :
    0 ≤ (battleSim p1 p2 turns oracle).2.2.1.current_hp
    ∧ 0 ≤ (battleSim p1 p2 turns oracle).2.2.2.current_hp
    ∧ (0 < (battleSim p1 p2 turns oracle).2.2.1.current_hp
        ∨ 0 < (battleSim p1 p2 turns oracle).2.2.2.current_hp)
    ∧ ((battleSim p1 p2 turns oracle).2.1.all fun e => decide (0 ≤ e.remaining_hp)) = true := by
  obtain ⟨-, hq1, hq2, -, -, hev, -⟩ :=
    runBattle_spec oracle (maxTurnsOf turns) 1 p1 p2 (le_of_lt h1) (le_of_lt h2)
  refine ⟨hq1, hq2,
    runBattle_not_both_zero oracle (maxTurnsOf turns) 1 p1 p2 h1 h2, ?_⟩
  rw [List.all_eq_true]
  intro e he
  exact decide_eq_true (hev e he).2

/-- Witness for `battle_at_most_one_faints` at a concrete battle. -/
theorem battle_at_most_one_faints_witness :
    (0 : ℤ) < ratta.current_hp ∧ (0 : ℤ) < gast.current_hp
    ∧ (0 ≤ (battleSim ratta gast none oracleFixed).2.2.1.current_hp
      ∧ 0 ≤ (battleSim ratta gast none oracleFixed).2.2.2.current_hp
      ∧ (0 < (battleSim ratta gast none oracleFixed).2.2.1.current_hp
          ∨ 0 < (battleSim ratta gast none oracleFixed).2.2.2.current_hp)
      ∧ ((battleSim ratta gast none oracleFixed).2.1.all
          fun e => decide (0 ≤ e.remaining_hp)) = true) :=
  ⟨by decide, by decide,
    battle_at_most_one_faints ratta gast none oracleFixed (by decide) (by decide)⟩

/-! ## The sqlite_schedule_read tool (tools.ts) -/

/-- The value returned by a tool run: `{success: true, results: ...}` or
`{success: false, error: ...}`.  The row type is abstract. -/
inductive ToolReturn (ρ : Type)
  | success (results : ρ)
  | failure (error : String)
deriving DecidableEq

/-- The select-only check of tools.ts line 22,
`input.query.trim().toLowerCase().startsWith('select')`, modelled
character-wise: trim leading and trailing whitespace, lower-case, and
test for the prefix `select`.  (JavaScript trims Unicode whitespace and
lower-cases beyond ASCII; for distinguishing the SQL keyword `select`
the ASCII behaviour modelled here is the relevant one.) -/
def selectCheck (query : String) : Bool :=
  List.isPrefixOf "select".toList
    ((((query.toList.dropWhile Char.isWhitespace).reverse.dropWhile
        Char.isWhitespace).reverse).map Char.toLower)

/-- `sqlite_schedule_read.run`, tools.ts lines 21-39, with JavaScript
exceptions modelled by `Except`: `Except.error` is a thrown exception
propagating to the caller, `Except.ok` a returned value.  The database
access `db.prepare(query)` + `stmt.all()` is an oracle `stmtAll` that
either yields rows or throws with a message.  The select check happens
before the `try` block and throws; only the database access sits inside
the `try`/`catch`. -/
def sqlite_schedule_read_run {ρ : Type} (query : String)
    (stmtAll : String → Except String ρ) : Except String (ToolReturn ρ) :=
  if ¬(selectCheck query) then
    Except.error "Only SELECT queries are allowed with this tool."
  else
    match stmtAll query with
    | Except.ok results => Except.ok (ToolReturn.success results)
    | Except.error e => Except.ok (ToolReturn.failure e)

/-- `true` iff the modelled JavaScript function returns normally rather
than throwing. -/
def returnsNormally {ε α : Type} : Except ε α → Bool
  | Except.ok _ => true
  | Except.error _ => false

/-- Claim C2 counterexample: on the non-SELECT query `DROP TABLE talks`
the tool run does not return a `{success:false, error}` value — it
throws before reaching the `try` block, even with a database oracle that
never fails, so the exception propagates to the caller. -/
theorem sqlite_schedule_read_throws_on_non_select :
    selectCheck "DROP TABLE talks" = false
    ∧ selectCheck "  SELECT * FROM talks" = true
    ∧ returnsNormally (sqlite_schedule_read_run "DROP TABLE talks"
        (fun _ => Except.ok ([] : List String))) = false
    ∧ sqlite_schedule_read_run "DROP TABLE talks" (fun _ => Except.ok ([] : List String))
        = Except.error "Only SELECT queries are allowed with this tool." :=
  ⟨by decide, by decide, by decide, rfl⟩

/-- Claim C2 amended: the tool's `try`/`catch` converts any failure of
the database access into a returned `{success:false, error}` value, but
the non-SELECT rejection precedes the `try` block and is a thrown
exception: the run returns normally exactly when the trimmed lower-cased
query starts with `select`, and in that case a database error message is
returned as a `failure` value and database rows as a `success` value. -/
theorem sqlite_schedule_read_spec {ρ : Type} (query : String)
    (stmtAll : String → Except String ρ) :
    returnsNormally (sqlite_schedule_read_run query stmtAll) = selectCheck query
    ∧ sqlite_schedule_read_run query stmtAll
        = (if selectCheck query then
             match stmtAll query with
             | Except.ok results => Except.ok (ToolReturn.success results)
             | Except.error e => Except.ok (ToolReturn.failure e)
           else Except.error "Only SELECT queries are allowed with this tool.") := by
  cases hb : selectCheck query with
  | false =>
    have hrun : sqlite_schedule_read_run query stmtAll
        = Except.error "Only SELECT queries are allowed with this tool." := by
      unfold sqlite_schedule_read_run
      simp [hb]
    rw [hrun]
    exact ⟨rfl, by simp⟩
  | true =>
    have hrun : sqlite_schedule_read_run query stmtAll
        = match stmtAll query with
          | Except.ok results => Except.ok (ToolReturn.success results)
          | Except.error e => Except.ok (ToolReturn.failure e) := by
      unfold sqlite_schedule_read_run
      simp [hb]
    rw [hrun]
    refine ⟨?_, by simp⟩
    cases stmtAll query <;> rfl

/-! ## The schedule importer (build-schedule/index.ts) -/

/-- A possibly-localized string of the feed (`string | LocalizedString`):
a plain string, or an object whose optional `en` field is used with the
`JSON.stringify` of the object (recorded here as a string) as fallback. -/
inductive LocStr
  | str (s : String)
  | loc (en : Option String) (json : String)
deriving DecidableEq

/-- The extraction
`typeof x === 'string' ? x : (x && x.en ? x.en : JSON.stringify(x))`
used for names and titles (an empty `en` is falsy in JavaScript). -/
def locStrVal : LocStr → String
  | LocStr.str s => s
  | LocStr.loc (some e) j => if e = "" then j else e
  | LocStr.loc none j => j

/-- `x ? <extract> : null` on an optional possibly-localized string: an
absent value and a plain empty string are falsy and give `null`. -/
def locDescVal : Option LocStr → Option String
  | none => none
  | some (LocStr.str s) => if s = "" then none else some s
  | some (LocStr.loc en j) => some (locStrVal (LocStr.loc en j))

/-- `x || null` on an optional string (an empty string is falsy). -/
def strOrNull : Option String → Option String
  | none => none
  | some s => if s = "" then none else some s

/-- `x || null` on an optional number (0 is falsy). -/
def numOrNull : Option ℤ → Option ℤ
  | none => none
  | some n => if n = 0 then none else some n

/-- `x || ''` on an optional string. -/
def strOrEmpty : Option String → String
  | none => ""
  | some s => s

/-- A room record of the feed as read by the importer. -/
structure RoomFeed where
  id : ℤ
  name : LocStr
  description : Option LocStr
deriving DecidableEq

/-- A track record of the feed as read by the importer. -/
structure TrackFeed where
  id : ℤ
  name : LocStr
  description : Option LocStr
  color : Option String
deriving DecidableEq

/-- A speaker record of the feed as read by the importer. -/
structure SpeakerFeed where
  code : String
  name : String
  avatar : Option String
  avatar_thumbnail_default : Option String
  avatar_thumbnail_tiny : Option String
deriving DecidableEq

/-- A talk record of the feed as read by the importer (`ending` is the
source's `end` field, a keyword in Lean).  An absent `speakers` array is
the empty list. -/
structure TalkFeed where
  id : ℤ
  code : Option String
  title : LocStr
  abstract : Option String
  start : String
  ending : String
  room : ℤ
  track : Option ℤ
  duration : Option ℤ
  updated : Option String
  state : Option String
  do_not_record : Bool
  speakers : List String
deriving DecidableEq

/-- The feed passed to `insertScheduleData` (absent arrays are empty). -/
structure FeedData where
  rooms : List RoomFeed
  tracks : List TrackFeed
  speakers : List SpeakerFeed
  talks : List TalkFeed

/-- A row of the `rooms` table (minus its primary key). -/
structure RoomRow where
  name : String
  description : Option String
deriving DecidableEq

/-- A row of the `tracks` table (minus its primary key). -/
structure TrackRow where
  name : String
  description : Option String
  color : Option String
deriving DecidableEq

/-- A row of the `speakers` table (minus its primary key). -/
structure SpeakerRow where
  name : String
  avatar : String
  avatar_thumbnail_default : String
  avatar_thumbnail_tiny : String
deriving DecidableEq

/-- A row of the `talks` table (minus its primary key; `ending` is the
`end` column). -/
structure TalkRow where
  code : Option String
  title : String
  abstract : Option String
  start : String
  ending : String
  room : ℤ
  track : Option ℤ
  duration : Option ℤ
  updated : Option String
  state : Option String
  do_not_record : ℤ
deriving DecidableEq

/-- A database table as a partial map from primary key to row. -/
def Table (κ ρ : Type) := κ → Option ρ

/-- `INSERT OR REPLACE` keyed by the primary key: overwrite the row. -/
def upsert {κ ρ : Type} [DecidableEq κ] (k : κ) (v : ρ) (t : Table κ ρ) : Table κ ρ :=
  fun q => if q = k then some v else t q

/-- `INSERT OR IGNORE` keyed by the primary key: keep an existing row,
insert the new one only if the key is absent. -/
def insertIgnore {κ ρ : Type} [DecidableEq κ] (k : κ) (v : ρ) (t : Table κ ρ) : Table κ ρ :=
  fun q => if q = k then some ((t k).getD v) else t q

/-- The five tables created by build-schedule/index.ts lines 22-68,
each keyed by its primary key (`talks.id`, `speakers.code`, `rooms.id`,
`tracks.id`, and the composite key of `talk_speakers`). -/
@[ext]
structure ScheduleDB where
  talks : Table ℤ TalkRow
  speakers : Table String SpeakerRow
  rooms : Table ℤ RoomRow
  tracks : Table ℤ TrackRow
  talk_speakers : Table (ℤ × String) Unit

/-- The row bound by `insertRoom.run`, index.ts lines 111-121. -/
def roomRowOf (r : RoomFeed) : RoomRow :=
  { name := locStrVal r.name, description := locDescVal r.description }

/-- The row bound by `insertTrack.run`, index.ts lines 128-139. -/
def trackRowOf (t : TrackFeed) : TrackRow :=
  { name := locStrVal t.name, description := locDescVal t.description,
    color := strOrNull t.color }

/-- The row bound by `insertSpeaker.run`, index.ts lines 146-152. -/
def speakerRowOf (s : SpeakerFeed) : SpeakerRow :=
  { name := s.name, avatar := strOrEmpty s.avatar,
    avatar_thumbnail_default := strOrEmpty s.avatar_thumbnail_default,
    avatar_thumbnail_tiny := strOrEmpty s.avatar_thumbnail_tiny }

/-- The row bound by `insertTalk.run`, index.ts lines 159-174. -/
def talkRowOf (t : TalkFeed) : TalkRow :=
  { code := strOrNull t.code, title := locStrVal t.title,
    abstract := strOrNull t.abstract, start := t.start, ending := t.ending,
    room := t.room, track := numOrNull t.track, duration := numOrNull t.duration,
    updated := strOrNull t.updated, state := strOrNull t.state,
    do_not_record := if t.do_not_record then 1 else 0 }

/-- One iteration of the rooms loop of `insertScheduleData`. -/
def insertRoomStep (db : ScheduleDB) (r : RoomFeed) : ScheduleDB :=
  { db with rooms := upsert r.id (roomRowOf r) db.rooms }

/-- One iteration of the tracks loop of `insertScheduleData`. -/
def insertTrackStep (db : ScheduleDB) (t : TrackFeed) : ScheduleDB :=
  { db with tracks := upsert t.id (trackRowOf t) db.tracks }

/-- One iteration of the speakers loop of `insertScheduleData`. -/
def insertSpeakerStep (db : ScheduleDB) (s : SpeakerFeed) : ScheduleDB :=
  { db with speakers := upsert s.code (speakerRowOf s) db.speakers }

/-- One iteration of the talks loop of `insertScheduleData`: upsert the
talk row, then insert-or-ignore one join row per speaker code. -/
def insertTalkStep (db : ScheduleDB) (t : TalkFeed) : ScheduleDB :=
  t.speakers.foldl
    (fun d sc => { d with talk_speakers := insertIgnore (t.id, sc) () d.talk_speakers })
    { db with talks := upsert t.id (talkRowOf t) db.talks }

/-- `insertScheduleData`, index.ts lines 105-194: the four loops in
order (rooms, tracks, speakers, talks with their join rows) as one
transaction over the database state. -/
def insertScheduleData (data : FeedData) (db : ScheduleDB) : ScheduleDB :=
  data.talks.foldl insertTalkStep
    (data.speakers.foldl insertSpeakerStep
      (data.tracks.foldl insertTrackStep
        (data.rooms.foldl insertRoomStep db)))

/-! ### Replay-idempotency of keyed writes -/

/-- Apply a list of keyed overwrites in order. -/
def applyUpserts {κ ρ : Type} [DecidableEq κ] (ws : List (κ × ρ)) (t : Table κ ρ) :
    Table κ ρ :=
  ws.foldl (fun t w => upsert w.1 w.2 t) t

/-- Apply a list of keyed insert-if-absent writes in order. -/
def applyIgnores {κ ρ : Type} [DecidableEq κ] (ws : List (κ × ρ)) (t : Table κ ρ) :
    Table κ ρ :=
  ws.foldl (fun t w => insertIgnore w.1 w.2 t) t

/-- The value of the last write to key `k` in a write sequence. -/
def lastVal {κ ρ : Type} [DecidableEq κ] : List (κ × ρ) → κ → Option ρ
  | [], _ => none
  | w :: ws, k =>
    match lastVal ws k with
    | some v => some v
    | none => if w.1 = k then some w.2 else none

/-- The value of the first write to key `k` in a write sequence. -/
def firstVal {κ ρ : Type} [DecidableEq κ] : List (κ × ρ) → κ → Option ρ
  | [], _ => none
  | w :: ws, k => if w.1 = k then some w.2 else firstVal ws k

/-- A sequence of overwrites maps each key to its last written value,
leaving untouched keys to the underlying table. -/
lemma applyUpserts_apply {κ ρ : Type} [DecidableEq κ] (ws : List (κ × ρ))
    (t : Table κ ρ) (k : κ) :
    applyUpserts ws t k
      = match lastVal ws k with
        | some v => some v
        | none => t k := by
  induction ws generalizing t with
  | nil => rfl
  | cons w ws ih =>
    show applyUpserts ws (upsert w.1 w.2 t) k = _
    rw [ih]
    cases hlv : lastVal ws k with
    | some v => simp [lastVal, hlv]
    | none =>
      simp only [lastVal, hlv]
      unfold upsert
      by_cases hk : k = w.1
      · rw [if_pos hk, if_pos hk.symm]
      · rw [if_neg hk, if_neg (fun h => hk h.symm)]

/-- Replaying the same overwrites is a no-op: the last write wins both
times. -/
lemma applyUpserts_idem {κ ρ : Type} [DecidableEq κ] (ws : List (κ × ρ)) (t : Table κ ρ) :
    applyUpserts ws (applyUpserts ws t) = applyUpserts ws t := by
  funext k
  rw [applyUpserts_apply ws (applyUpserts ws t) k]
  cases hlv : lastVal ws k with
  | some v =>
    rw [applyUpserts_apply ws t k, hlv]
  | none =>
    rfl

/-- A sequence of insert-if-absent writes keeps existing rows and maps a
fresh key to its first written value. -/
lemma applyIgnores_apply {κ ρ : Type} [DecidableEq κ] (ws : List (κ × ρ))
    (t : Table κ ρ) (k : κ) :
    applyIgnores ws t k
      = match t k with
        | some v => some v
        | none => firstVal ws k := by
  induction ws generalizing t with
  | nil =>
    show t k = match t k with | some v => some v | none => firstVal ([] : List (κ × ρ)) k
    cases t k <;> rfl
  | cons w ws ih =>
    show applyIgnores ws (insertIgnore w.1 w.2 t) k = _
    rw [ih]
    by_cases hk : k = w.1
    · subst hk
      have hins : insertIgnore w.1 w.2 t w.1 = some ((t w.1).getD w.2) := by
        unfold insertIgnore
        rw [if_pos rfl]
      have hfv : firstVal (w :: ws) w.1 = some w.2 := by
        simp [firstVal]
      rw [hins, hfv]
      cases htk : t w.1 <;> simp [htk]
    · have hins : insertIgnore w.1 w.2 t k = t k := by
        unfold insertIgnore
        rw [if_neg hk]
      have hfv : firstVal (w :: ws) k = firstVal ws k := by
        simp only [firstVal]
        rw [if_neg (fun h => hk h.symm)]
      rw [hins, hfv]

/-- Replaying the same insert-if-absent writes is a no-op. -/
lemma applyIgnores_idem {κ ρ : Type} [DecidableEq κ] (ws : List (κ × ρ)) (t : Table κ ρ) :
    applyIgnores ws (applyIgnores ws t) = applyIgnores ws t := by
  funext k
  rw [applyIgnores_apply ws (applyIgnores ws t) k]
  cases ht : applyIgnores ws t k with
  | some v => rfl
  | none =>
    rw [applyIgnores_apply ws t k] at ht
    cases htk : t k with
    | some v =>
      rw [htk] at ht
      exact absurd ht (by simp)
    | none =>
      rw [htk] at ht
      exact ht

/-! ### The import as per-table write sequences -/

/-- The rooms loop writes only the rooms table. -/
lemma foldl_insertRoomStep (rs : List RoomFeed) (db : ScheduleDB) :
    rs.foldl insertRoomStep db
      = { db with rooms := applyUpserts (rs.map fun r => (r.id, roomRowOf r)) db.rooms } := by
  induction rs generalizing db with
  | nil => rfl
  | cons r rs ih =>
    show rs.foldl insertRoomStep (insertRoomStep db r) = _
    rw [ih]
    rfl

/-- The tracks loop writes only the tracks table. -/
lemma foldl_insertTrackStep (ts : List TrackFeed) (db : ScheduleDB) :
    ts.foldl insertTrackStep db
      = { db with tracks := applyUpserts (ts.map fun t => (t.id, trackRowOf t)) db.tracks } := by
  induction ts generalizing db with
  | nil => rfl
  | cons t ts ih =>
    show ts.foldl insertTrackStep (insertTrackStep db t) = _
    rw [ih]
    rfl

/-- The speakers loop writes only the speakers table. -/
lemma foldl_insertSpeakerStep (ss : List SpeakerFeed) (db : ScheduleDB) :
    ss.foldl insertSpeakerStep db
      = { db with speakers := applyUpserts (ss.map fun s => (s.code, speakerRowOf s)) db.speakers } := by
  induction ss generalizing db with
  | nil => rfl
  | cons s0 ss ih =>
    show ss.foldl insertSpeakerStep (insertSpeakerStep db s0) = _
    rw [ih]
    rfl

/-- The join-row loop of one talk writes only the talk_speakers table. -/
lemma foldl_joinStep (tid : ℤ) (scs : List String) (d : ScheduleDB) :
    scs.foldl
      (fun d sc => { d with talk_speakers := insertIgnore (tid, sc) () d.talk_speakers }) d
      = { d with talk_speakers :=
            applyIgnores (scs.map fun sc => ((tid, sc), ())) d.talk_speakers } := by
  induction scs generalizing d with
  | nil => rfl
  | cons sc scs ih =>
    show scs.foldl _ _ = _
    rw [ih]
    rfl

/-- One talks-loop iteration: a talk upsert plus its join-row inserts. -/
lemma insertTalkStep_eq (db : ScheduleDB) (t : TalkFeed) :
    insertTalkStep db t
      = { db with
          talks := upsert t.id (talkRowOf t) db.talks,
          talk_speakers :=
            applyIgnores (t.speakers.map fun sc => ((t.id, sc), ())) db.talk_speakers } := by
  unfold insertTalkStep
  rw [foldl_joinStep t.id t.speakers]

/-- The talks loop writes the talks table (as upserts) and the
talk_speakers table (as insert-if-absent rows). -/
lemma foldl_insertTalkStep (ts : List TalkFeed) (db : ScheduleDB) :
    ts.foldl insertTalkStep db
      = { db with
          talks := applyUpserts (ts.map fun t => (t.id, talkRowOf t)) db.talks,
          talk_speakers :=
            applyIgnores ((ts.map fun t => t.speakers.map fun sc => ((t.id, sc), ())).flatten)
              db.talk_speakers } := by
  induction ts generalizing db with
  | nil => rfl
  | cons t ts ih =>
    show ts.foldl insertTalkStep (insertTalkStep db t) = _
    rw [ih, insertTalkStep_eq]
    refine ScheduleDB.ext rfl rfl rfl rfl ?_
    show applyIgnores ((ts.map fun t => t.speakers.map fun sc => ((t.id, sc), ())).flatten)
        (applyIgnores (t.speakers.map fun sc => ((t.id, sc), ())) db.talk_speakers)
      = applyIgnores
          (((t :: ts).map fun t => t.speakers.map fun sc => ((t.id, sc), ())).flatten)
          db.talk_speakers
    rw [List.map_cons, List.flatten_cons]
    unfold applyIgnores
    rw [List.foldl_append]

/-- The whole import, written per table. -/
lemma insertScheduleData_eq (data : FeedData) (db : ScheduleDB) :
    insertScheduleData data db
      = { talks := applyUpserts (data.talks.map fun t => (t.id, talkRowOf t)) db.talks,
          speakers :=
            applyUpserts (data.speakers.map fun s => (s.code, speakerRowOf s)) db.speakers,
          rooms := applyUpserts (data.rooms.map fun r => (r.id, roomRowOf r)) db.rooms,
          tracks := applyUpserts (data.tracks.map fun t => (t.id, trackRowOf t)) db.tracks,
          talk_speakers :=
            applyIgnores
              ((data.talks.map fun t => t.speakers.map fun sc => ((t.id, sc), ())).flatten)
              db.talk_speakers } := by
  unfold insertScheduleData
  rw [foldl_insertRoomStep, foldl_insertTrackStep, foldl_insertSpeakerStep,
    foldl_insertTalkStep]

/-- Claim C8: running the schedule import a second time with exactly the
same feed data leaves every table (talks, speakers, rooms, tracks,
talk_speakers) with exactly the same rows as after the first run: the
entity upserts are keyed overwrites whose last write wins, and the join
inserts are keyed insert-if-absent, so the import is idempotent — from
any starting database state. -/
theorem insertScheduleData_idempotent (data : FeedData) (db : ScheduleDB) :
    insertScheduleData data (insertScheduleData data db) = insertScheduleData data db := by
  rw [insertScheduleData_eq data db, insertScheduleData_eq data]
  exact ScheduleDB.ext (applyUpserts_idem _ _) (applyUpserts_idem _ _)
    (applyUpserts_idem _ _) (applyUpserts_idem _ _) (applyIgnores_idem _ _)

/-- Witness for `sqlite_schedule_read_spec` at a concrete SELECT query
and a database oracle returning no rows. -/
theorem sqlite_schedule_read_spec_witness :
    returnsNormally (sqlite_schedule_read_run "  SELECT * FROM talks"
        (fun _ => Except.ok ([] : List String)))
      = selectCheck "  SELECT * FROM talks"
    ∧ sqlite_schedule_read_run "  SELECT * FROM talks"
        (fun _ => Except.ok ([] : List String))
      = (if selectCheck "  SELECT * FROM talks" then
           Except.ok (ToolReturn.success ([] : List String))
         else Except.error "Only SELECT queries are allowed with this tool.") :=
  sqlite_schedule_read_spec "  SELECT * FROM talks" (fun _ => Except.ok ([] : List String))

/-- An empty database (all tables empty), as after table creation. -/
def emptyDB : ScheduleDB :=
  { talks := fun _ => none, speakers := fun _ => none, rooms := fun _ => none,
    tracks := fun _ => none, talk_speakers := fun _ => none }

/-- A small concrete feed exercising every table of the importer. -/
def feedSample : FeedData :=
  { rooms := [{ id := 1, name := LocStr.str "Main Hall", description := none }],
    tracks := [{ id := 2, name := LocStr.loc (some "AI") "rawjson",
                 description := some (LocStr.str ""), color := some "#fff" }],
    speakers := [{ code := "SPK", name := "Alice", avatar := none,
                   avatar_thumbnail_default := some "thumb", avatar_thumbnail_tiny := none }],
    talks := [{ id := 7, code := some "T1", title := LocStr.str "A Talk",
                abstract := none, start := "2025-04-23T09:00:00Z",
                ending := "2025-04-23T09:30:00Z", room := 1, track := some 2,
                duration := some 30, updated := none, state := none,
                do_not_record := false, speakers := ["SPK"] }] }

/-- Witness for `insertScheduleData_idempotent` at a concrete feed and
the empty database. -/
theorem insertScheduleData_idempotent_witness :
    insertScheduleData feedSample (insertScheduleData feedSample emptyDB)
      = insertScheduleData feedSample emptyDB :=
  insertScheduleData_idempotent feedSample emptyDB

end Mcp
